import Mathlib

/-!
Verification of the native-platform file-events core against its design
specification.  The definitions below are a shallow embedding of the C++
sources:

* src/src/file-events/cpp/linux_fsnotifier.cpp
* src/src/file-events/cpp/win_fsnotifier.cpp
* src/src/file-events/cpp/generic_fsnotifier.cpp

UTF-16 strings (std::u16string) are modelled as lists of code units
(List Nat).  std::unordered_map is modelled as an association list with
unique keys; lookup, assignment (operator[] with a value), erase, and the
default-inserting operator[] read are modelled separately below, each
following the C++ semantics of the corresponding operation.
-/

namespace NativePlatform

/-- UTF-16 code-unit string, the model of std::u16string. -/
abbrev U16Str := List Nat

/-- Association-list lookup, the model of unordered_map::find /
unordered_map::count on a map with unique keys. -/
def alookup {α β : Type} [DecidableEq α] : List (α × β) → α → Option β
| [], _ => none
| (k2, v) :: rest, k => if k2 = k then some v else alookup rest k

/-- Association-list assignment, the model of m[k] = v (insert or
overwrite). -/
def aset {α β : Type} [DecidableEq α] : List (α × β) → α → β → List (α × β)
| [], k, v => [(k, v)]
| (k2, v2) :: rest, k, v => if k2 = k then (k, v) :: rest else (k2, v2) :: aset rest k v

/-- Association-list erase, the model of unordered_map::erase(k): every
pair carrying the key is removed (the maps built here have unique keys,
so at most one pair is). -/
def aerase {α β : Type} [DecidableEq α] : List (α × β) → α → List (α × β)
| [], _ => []
| (k2, v) :: rest, k => if k2 = k then aerase rest k else (k2, v) :: aerase rest k

/-- The model of C++ `u16string path = watchRoots[wd]` where watchRoots is
an unordered_map with u16string values: if wd has an entry its value is
returned and the map is unchanged; if not, operator[] default-inserts an
empty string under wd and returns it (linux_fsnotifier.cpp line 162). -/
def agetDefault (m : List (Nat × U16Str)) (k : Nat) : U16Str × List (Nat × U16Str) :=
match alookup m k with
| some v => (v, m)
| none => ([], m ++ [(k, [])])

/-! ### Bit-mask helpers (generic_fsnotifier.h lines 18-19) -/

/-- IS_SET(flags, flag) = ((flags & flag) == flag). -/
def IS_SET (flags flag : Nat) : Bool := (flags &&& flag) == flag

/-- IS_ANY_SET(flags, mask) = ((flags & mask) != 0). -/
def IS_ANY_SET (flags mask : Nat) : Bool := (flags &&& mask) != 0

/-! ### Event-type constants (generic_fsnotifier.h lines 12-16) -/

def FILE_EVENT_CREATED : Nat := 0
def FILE_EVENT_REMOVED : Nat := 1
def FILE_EVENT_MODIFIED : Nat := 2
def FILE_EVENT_INVALIDATE : Nat := 3
def FILE_EVENT_UNKNOWN : Nat := 4

/-! ### inotify mask constants (linux/inotify.h, used by linux_fsnotifier.cpp) -/

def IN_MODIFY : Nat := 0x2
def IN_MOVED_FROM : Nat := 0x40
def IN_MOVED_TO : Nat := 0x80
def IN_CREATE : Nat := 0x100
def IN_DELETE : Nat := 0x200
def IN_DELETE_SELF : Nat := 0x400
def IN_MOVE_SELF : Nat := 0x800
def IN_UNMOUNT : Nat := 0x2000
def IN_Q_OVERFLOW : Nat := 0x4000
def IN_IGNORED : Nat := 0x8000

/-! ### UTF-16 code-unit constants used in the sources -/

/-- Code unit of the forward slash appended by the Linux decoder. -/
def slashUnit : Nat := 47

/-- Code unit of the backslash. -/
def backslashUnit : Nat := 92

/-- The code units of the long-path marker "\x5c\x5c?\x5c"
(win_fsnotifier.cpp line 210). -/
def longPathMarker : U16Str := [92, 92, 63, 92]

/-- The code units of the UNC long-path marker "\x5c\x5c?\x5cUNC\x5c"
(win_fsnotifier.cpp line 214). -/
def uncLongPathMarker : U16Str := [92, 92, 63, 92, 85, 78, 67, 92]

/-! ### Windows path classification (win_fsnotifier.cpp lines 193-215) -/

/-- isAbsoluteLocalPath: length at least 3, a drive letter, then a colon
(58) and a backslash (92). -/
def isAbsoluteLocalPath : U16Str → Bool
| c0 :: c1 :: c2 :: _ =>
  ((97 ≤ c0 && c0 ≤ 122) || (65 ≤ c0 && c0 ≤ 90)) && c1 == 58 && c2 == 92
| _ => false

/-- isAbsoluteUncPath: length at least 3 and two leading backslashes. -/
def isAbsoluteUncPath : U16Str → Bool
| c0 :: c1 :: _ :: _ => c0 == 92 && c1 == 92
| _ => false

/-- isLongPath: length at least 4 and the first four code units are the
long-path marker. -/
def isLongPath (path : U16Str) : Bool :=
decide (4 ≤ path.length) && path.take 4 == longPathMarker

/-- isUncLongPath: length at least 8 and the first eight code units are
the UNC long-path marker. -/
def isUncLongPath (path : U16Str) : Bool :=
decide (8 ≤ path.length) && path.take 8 == uncLongPathMarker

/-- convertToLongPathIfNeeded (win_fsnotifier.cpp lines 218-242): paths of
length at most 240 and paths already in long form are unchanged; absolute
local paths get the long-path marker prepended; absolute UNC paths have
their two leading backslashes replaced by the UNC long-path marker; any
other path is unchanged. -/
def convertToLongPathIfNeeded (path : U16Str) : U16Str :=
if path.length ≤ 240 then path
else if isLongPath path then path
else if isAbsoluteLocalPath path then longPathMarker ++ path
else if isAbsoluteUncPath path then uncLongPathMarker ++ path.drop 2
else path

/-! ### Exceptions

FileWatcherException (generic_fsnotifier.cpp lines 34-48) carries a
message, optionally a path, and optionally an OS error code; the three
constructor overloads are modelled by the optional fields. -/

structure FwException where
  msg : String
  path : Option U16Str := none
  code : Option Nat := none
deriving DecidableEq, Repr

namespace Linux

/-- Linux server state: the forward watch-point table (path to WatchPoint,
a WatchPoint being represented by its inotify watch descriptor, the only
field the decoder and the indexes use) and the reverse index watchRoots
(watch descriptor to path). -/
structure ServerState where
  watchPoints : List (U16Str × Nat)
  watchRoots : List (Nat × U16Str)
deriving DecidableEq, Repr

/-- One inotify_event record: watch descriptor, mask, and the name carried
by the record converted to UTF-16 (empty when the record has no name). -/
structure InotifyEvent where
  wd : Nat
  mask : Nat
  name : U16Str
deriving DecidableEq, Repr

/-- Server::handleEvent (linux_fsnotifier.cpp lines 155-189) for one
inotify record.  Returns the state after the record and the list of
(type, path) pairs passed to reportChange.  Mirrors the source exactly:
records with IN_UNMOUNT return at once; the directory path is read with
watchRoots[wd], which default-inserts an empty path when wd is unknown;
IN_IGNORED erases the watch point and the reverse-index entry and emits
nothing; otherwise the type is chosen by the if-else chain of lines
173-183 and the name, when non-empty, is appended after a slash. -/
def handleEvent (st : ServerState) (event : InotifyEvent) :
    ServerState × List (Nat × U16Str) :=
  if IS_ANY_SET event.mask IN_UNMOUNT then (st, [])
  else
    let pathRoots := agetDefault st.watchRoots event.wd
    let path := pathRoots.1
    let roots := pathRoots.2
    if IS_SET event.mask IN_IGNORED then
      (⟨aerase st.watchPoints path, aerase roots event.wd⟩, [])
    else
      let eventType :=
        if IS_SET event.mask IN_Q_OVERFLOW then FILE_EVENT_INVALIDATE
        else if IS_ANY_SET event.mask (IN_CREATE ||| IN_MOVED_TO) then FILE_EVENT_CREATED
        else if IS_ANY_SET event.mask (IN_DELETE ||| IN_DELETE_SELF ||| IN_MOVED_FROM) then FILE_EVENT_REMOVED
        else if IS_SET event.mask IN_MODIFY then FILE_EVENT_MODIFIED
        else FILE_EVENT_UNKNOWN
      let fullPath := if event.name = [] then path else path ++ slashUnit :: event.name
      (⟨st.watchPoints, roots⟩, [(eventType, fullPath)])

/-- Server::registerPath (linux_fsnotifier.cpp lines 191-200).  The
outcome of inotify_add_watch (lines 15-23) is an environment input:
some wd on success, none on failure (the C++ then throws "Couldn\x27t add
watch").  When the WatchPoint constructor throws inside
unordered_map::emplace, the map is left unchanged (single-element emplace
offers the strong exception guarantee), and the watchRoots assignment on
line 199 is never reached; hence the state is returned untouched on every
failure path.  Returns the state after the call and the exception thrown,
if any. -/
def registerPath (st : ServerState) (path : U16Str) (addWatchResult : Option Nat) :
    ServerState × Option FwException :=
  if (alookup st.watchPoints path).isSome then
    (st, some { msg := "Already watching path" })
  else
    match addWatchResult with
    | none => (st, some { msg := "Couldn\x27t add watch" })
    | some wd => (⟨aset st.watchPoints path wd, aset st.watchRoots wd path⟩, none)

/-- Server::unregisterPath (linux_fsnotifier.cpp lines 202-210): throws
when the path is not in the table; otherwise erases it from the table and
its descriptor from the reverse index. -/
def unregisterPath (st : ServerState) (path : U16Str) :
    ServerState × Option FwException :=
  match alookup st.watchPoints path with
  | none => (st, some { msg := "Cannot stop watching path that was never watched" })
  | some wd => (⟨aerase st.watchPoints path, aerase st.watchRoots wd⟩, none)

/-- AbstractServer::unregisterPaths (generic_fsnotifier.cpp lines 170-176)
instantiated with the Linux Server::unregisterPath: because the Linux
implementation throws on a missing path, the exception propagates out of
the loop, so iteration stops at the first missing path and the remaining
paths are left untouched.  Returns the state reached and the exception,
if one was thrown. -/
def unregisterPaths (st : ServerState) : List U16Str → ServerState × Option FwException
| [] => (st, none)
| p :: ps =>
  match unregisterPath st p with
  | (_, some e) => (st, some e)
  | (st2, none) => unregisterPaths st2 ps

/-- The lockstep condition of the spec (data-model invariant 5):
watchRoots maps d to p exactly when watchPoints contains p with watch
descriptor d. -/
def checkLockstep (st : ServerState) : Bool :=
  st.watchRoots.all (fun dp => alookup st.watchPoints dp.2 == some dp.1) &&
    st.watchPoints.all (fun pd => alookup st.watchRoots pd.2 == some pd.1)

end Linux

namespace Win

/-- WatchPointStatus (win_fsnotifier.h): the Windows watch-point state
machine. -/
inductive WatchPointStatus where
| notListening
| listening
| cancelled
| finished
deriving DecidableEq, Repr

/-- The Windows watch-point table: long-path-normalized path to the watch
point, a watch point being represented by its status (the only field the
registration and unregistration paths inspect). -/
abbrev WatchPoints := List (U16Str × WatchPointStatus)

/-- Windows file-action constants (winnt.h). -/
def FILE_ACTION_ADDED : Nat := 1
def FILE_ACTION_REMOVED : Nat := 2
def FILE_ACTION_MODIFIED : Nat := 3
def FILE_ACTION_RENAMED_OLD_NAME : Nat := 4
def FILE_ACTION_RENAMED_NEW_NAME : Nat := 5

/-- ERROR_SUCCESS (winerror.h). -/
def ERROR_SUCCESS : Nat := 0

/-- ERROR_ACCESS_DENIED (winerror.h). -/
def ERROR_ACCESS_DENIED : Nat := 5

/-- One FILE_NOTIFY_INFORMATION entry: the action code and the file name
(already cut to FileNameLength, possibly empty). -/
structure FileNotifyRecord where
  action : Nat
  fileName : U16Str
deriving DecidableEq, Repr

/-- The outcome of WatchPoint::listen (win_fsnotifier.cpp lines 84-107):
SUCCESS, DELETED (access denied on a vanished directory), or a thrown
"Couldn\x27t start watching" exception carrying the GetLastError code. -/
inductive ListenOutcome where
| success
| deleted
| failed (code : Nat)
deriving DecidableEq, Repr

/-- Server::handleEvent (win_fsnotifier.cpp lines 244-275) for one
FILE_NOTIFY_INFORMATION entry: build the changed path by prepending a
backslash to a non-empty file name and the watched directory before it,
strip the long-path marker (UNC or plain), and map the action code to the
normalized event type. -/
def handleEvent (path : U16Str) (info : FileNotifyRecord) : Nat × U16Str :=
  let withName := path ++ (if info.fileName = [] then [] else backslashUnit :: info.fileName)
  let changedPath :=
    if isLongPath withName then
      if isUncLongPath withName then [92, 92] ++ withName.drop 8
      else withName.drop 4
    else withName
  let eventType :=
    if info.action == FILE_ACTION_ADDED || info.action == FILE_ACTION_RENAMED_NEW_NAME then
      FILE_EVENT_CREATED
    else if info.action == FILE_ACTION_REMOVED || info.action == FILE_ACTION_RENAMED_OLD_NAME then
      FILE_EVENT_REMOVED
    else if info.action == FILE_ACTION_MODIFIED then FILE_EVENT_MODIFIED
    else FILE_EVENT_UNKNOWN
  (eventType, changedPath)

/-- Server::handleEvents (win_fsnotifier.cpp lines 135-191) for one
completion of a watch point whose path is `path`.  Environment inputs:
the server termination flag, the completion error code, whether the
watched directory is still a valid directory, the decoded
FILE_NOTIFY_INFORMATION chain, the transferred byte count, and the
outcome of the re-arming listen() call.  Returns the (type, path) pairs
passed to reportChange, in order, and the exception forwarded to
reportError, if any (the whole body runs in a try/catch whose handler
calls reportError). -/
def handleEvents (terminated : Bool) (errorCode : Nat) (isValidDirectory : Bool)
    (path : U16Str) (bytesTransferred : Nat) (records : List FileNotifyRecord)
    (listenRes : ListenOutcome) : List (Nat × U16Str) × Option FwException :=
  if errorCode ≠ ERROR_SUCCESS ∧ ¬(errorCode = ERROR_ACCESS_DENIED ∧ ¬isValidDirectory) then
    ([], some { msg := "Error received when handling events", path := some path, code := some errorCode })
  else
    let prefixEvents : List (Nat × U16Str) :=
      if errorCode ≠ ERROR_SUCCESS then [(FILE_EVENT_REMOVED, path)] else []
    if terminated then (prefixEvents, none)
    else
      let decoded :=
        if bytesTransferred = 0 then [(FILE_EVENT_INVALIDATE, path)]
        else records.map (handleEvent path)
      match listenRes with
      | ListenOutcome.success => (prefixEvents ++ decoded, none)
      | ListenOutcome.deleted => (prefixEvents ++ decoded ++ [(FILE_EVENT_REMOVED, path)], none)
      | ListenOutcome.failed c =>
        (prefixEvents ++ decoded,
          some { msg := "Couldn\x27t start watching", path := some path, code := some c })

/-- Server::registerPath (win_fsnotifier.cpp lines 408-421).  The key is
the long-path-normalized form.  A live (non-FINISHED) entry makes the
call throw "Already watching path" without touching the table; a FINISHED
entry is erased first and the path is registered anew.  The WatchPoint
constructor outcome (CreateFileW plus the initial listen()) is an
environment input; on a constructor throw the erase already performed is
kept, matching the C++ control flow.  Returns the table after the call
and the exception thrown, if any. -/
def registerPath (watchPoints : WatchPoints) (path : U16Str)
    (ctorResult : Option FwException) : WatchPoints × Option FwException :=
  let longPath := convertToLongPathIfNeeded path
  match alookup watchPoints longPath with
  | some status =>
    if status = WatchPointStatus.finished then
      let erased := aerase watchPoints longPath
      match ctorResult with
      | some e => (erased, some e)
      | none => (aset erased longPath WatchPointStatus.listening, none)
    else (watchPoints, some { msg := "Already watching path", path := some path })
  | none =>
    match ctorResult with
    | some e => (watchPoints, some e)
    | none => (aset watchPoints longPath WatchPointStatus.listening, none)

/-- Server::unregisterPath (win_fsnotifier.cpp lines 423-431): erase the
long-path-normalized key; return false (after logging) when nothing was
erased, true otherwise. -/
def unregisterPath (watchPoints : WatchPoints) (path : U16Str) : Bool × WatchPoints :=
  let longPath := convertToLongPathIfNeeded path
  match alookup watchPoints longPath with
  | none => (false, watchPoints)
  | some _ => (true, aerase watchPoints longPath)

/-- AbstractServer::unregisterPaths (generic_fsnotifier.cpp lines 170-176)
instantiated with the Windows Server::unregisterPath: `success &=
unregisterPath(path)` never stops early, and the result is the
conjunction of the per-path results. -/
def unregisterPaths (watchPoints : WatchPoints) : List U16Str → Bool × WatchPoints
| [] => (true, watchPoints)
| p :: ps =>
  let head := unregisterPath watchPoints p
  let rest := unregisterPaths head.2 ps
  (head.1 && rest.1, rest.2)

end Win

/-! ### Command submission and draining -/

/-- The outcome of condition_variable::wait_for as seen by a submitter. -/
inductive WaitStatus where
| timeout
| noTimeout
deriving DecidableEq, Repr

/-- AbstractServer::executeOnThread (generic_fsnotifier.cpp lines 94-107),
after the command has been queued and the loop woken: the submitter waits
on the command with THREAD_TIMEOUT; a timeout throws "Command execution
timed out"; otherwise the failure the executed command stored is
rethrown, and when there is none the command result boolean is
returned. -/
def executeOnThread (waited : WaitStatus) (failure : Option FwException)
    (success : Bool) : Except FwException Bool :=
  match waited with
  | WaitStatus.timeout => Except.error { msg := "Command execution timed out" }
  | WaitStatus.noTimeout =>
    match failure with
    | some f => Except.error f
    | none => Except.ok success

/-- Server::executeOnRunLoop (win_fsnotifier.cpp lines 376-393): queuing
the APC can itself fail (QueueUserAPC returning 0 with a last-error
code); then the submitter waits with THREAD_TIMEOUT; a timeout throws
"Execution timed out"; otherwise the stored failure is rethrown or the
command result returned. -/
def executeOnRunLoop (queued : Bool) (queueErrorCode : Nat) (waited : WaitStatus)
    (failure : Option FwException) (result : Bool) : Except FwException Bool :=
  if !queued then
    Except.error { msg := "Received error while queuing APC", code := some queueErrorCode }
  else
    match waited with
    | WaitStatus.timeout => Except.error { msg := "Execution timed out" }
    | WaitStatus.noTimeout =>
      match failure with
      | some f => Except.error f
      | none => Except.ok result

/-- The primitive steps of AbstractServer::processCommands
(generic_fsnotifier.cpp lines 109-115): acquiring the queue mutex
(unique_lock construction), executing the command at a queue index,
clearing the queue, and releasing the mutex (unique_lock destruction at
the closing brace). -/
inductive DrainStep where
| lockStep
| execStep (index : Nat)
| clearStep
| unlockStep
deriving DecidableEq, Repr

/-- The step trace of AbstractServer::processCommands for a queue of n
commands, read off the source line by line: take the mutex, execute each
queued command in order, clear the queue, release the mutex. -/
def processCommandsTrace (n : Nat) : List DrainStep :=
  DrainStep.lockStep :: ((List.range n).map DrainStep.execStep ++ [DrainStep.clearStep, DrainStep.unlockStep])

/-- Whether the queue mutex is held when the step at position k of the
trace runs: the steps before position k contain more lock than unlock
steps. -/
def mutexHeldAt (trace : List DrainStep) (k : Nat) : Bool :=
  decide ((trace.take k).count DrainStep.unlockStep < (trace.take k).count DrainStep.lockStep)

/-- Whether some command body in the trace executes while the queue mutex
is held. -/
def someExecUnderMutex (trace : List DrainStep) : Bool :=
  (List.range trace.length).any (fun k =>
    (match trace.get? k with
     | some (DrainStep.execStep _) => true
     | _ => false) && mutexHeldAt trace k)

/-! ## Association-list lemmas -/

theorem alookup_aerase_ne {α β : Type} [DecidableEq α] (m : List (α × β)) (k k2 : α)
    (h : k ≠ k2) : alookup (aerase m k2) k = alookup m k := by
  induction m with
  | nil => rfl
  | cons kv rest ih =>
    cases kv with
    | mk k1 v =>
      by_cases hk : k1 = k2
      · subst hk
        simp [aerase, alookup, Ne.symm h, ih]
      · by_cases hkk : k1 = k
        · subst hkk
          simp [aerase, alookup, h, hk]
        · simp [aerase, alookup, hk, hkk, ih]

theorem aerase_of_lookup_none {α β : Type} [DecidableEq α] (m : List (α × β)) (k : α)
    (h : alookup m k = none) : aerase m k = m := by
  induction m with
  | nil => rfl
  | cons kv rest ih =>
    cases kv with
    | mk k1 v =>
      by_cases hk : k1 = k
      · simp [alookup, hk] at h
      · simp only [alookup, if_neg hk] at h
        simp [aerase, hk, ih h]

theorem isAbsoluteUncPath_of_take (p : U16Str) (h2 : p.take 2 = [92, 92])
    (hl : 240 < p.length) : isAbsoluteUncPath p = true := by
  match p with
  | [] => simp at h2
  | [a] => simp at h2
  | [a, b] => simp at hl
  | a :: b :: c :: t =>
    simp only [List.take, List.cons.injEq] at h2
    simp [isAbsoluteUncPath, h2.1, h2.2.1]

/-- C2: convertToLongPathIfNeeded leaves paths of length at most 240
unchanged, leaves paths already in long form unchanged, prepends the
long-path marker to long absolute local paths, replaces the two leading
backslashes of a long absolute UNC path by the UNC long-path marker, and
leaves every other path unchanged. -/
theorem convertToLongPathIfNeeded_matches_claim (p : U16Str) :
    (p.length ≤ 240 → convertToLongPathIfNeeded p = p) ∧
    (isLongPath p = true → convertToLongPathIfNeeded p = p) ∧
    (240 < p.length → isLongPath p = false → isAbsoluteLocalPath p = true →
      convertToLongPathIfNeeded p = longPathMarker ++ p) ∧
    (240 < p.length → isLongPath p = false → isAbsoluteLocalPath p = false →
      p.take 2 = [92, 92] →
      convertToLongPathIfNeeded p = uncLongPathMarker ++ p.drop 2) ∧
    (240 < p.length → isLongPath p = false → isAbsoluteLocalPath p = false →
      isAbsoluteUncPath p = false → convertToLongPathIfNeeded p = p) := by
  refine ⟨?_, ?_, ?_, ?_, ?_⟩
  · intro hlen
    simp [convertToLongPathIfNeeded, hlen]
  · intro hlong
    by_cases hlen : p.length ≤ 240 <;> simp [convertToLongPathIfNeeded, hlen, hlong]
  · intro hlen hlong hlocal
    simp [convertToLongPathIfNeeded, Nat.not_le.mpr hlen, hlong, hlocal]
  · intro hlen hlong hlocal htake
    simp [convertToLongPathIfNeeded, Nat.not_le.mpr hlen, hlong, hlocal,
      isAbsoluteUncPath_of_take p htake hlen]
  · intro hlen hlong hlocal hunc
    simp [convertToLongPathIfNeeded, Nat.not_le.mpr hlen, hlong, hlocal, hunc]

set_option maxRecDepth 4096 in
/-- Witness for C2 at three concrete paths: a short local path is
unchanged, a 243-unit local path gets the long-path marker, a 243-unit
UNC path gets the UNC long-path marker. -/
theorem convertToLongPathIfNeeded_matches_claim_witness :
    convertToLongPathIfNeeded [67, 58, 92, 97] = [67, 58, 92, 97] ∧
    convertToLongPathIfNeeded (67 :: 58 :: 92 :: List.replicate 240 97) =
      longPathMarker ++ (67 :: 58 :: 92 :: List.replicate 240 97) ∧
    convertToLongPathIfNeeded (92 :: 92 :: 115 :: List.replicate 240 97) =
      uncLongPathMarker ++ (92 :: 92 :: 115 :: List.replicate 240 97).drop 2 := by
  refine ⟨?_, ?_, ?_⟩
  · exact (convertToLongPathIfNeeded_matches_claim [67, 58, 92, 97]).1 (by decide)
  · exact (convertToLongPathIfNeeded_matches_claim
      (67 :: 58 :: 92 :: List.replicate 240 97)).2.2.1 (by decide) (by decide) (by decide)
  · exact (convertToLongPathIfNeeded_matches_claim
      (92 :: 92 :: 115 :: List.replicate 240 97)).2.2.2.1 (by decide) (by decide) (by decide)
      (by decide)

/-- C1: for a record whose watch descriptor is registered (the reverse
index maps it to `dir`), the Linux decoder emits nothing on IN_UNMOUNT or
IN_IGNORED, and otherwise emits exactly one event whose kind is chosen by
the mask — IN_Q_OVERFLOW first (Invalidate), then IN_CREATE or
IN_MOVED_TO (Created), then IN_DELETE, IN_DELETE_SELF or IN_MOVED_FROM
(Removed), then IN_MODIFY (Modified), anything else Unknown — and whose
path is the watched directory, with a slash and the record name appended
when the name is non-empty. -/
theorem linux_handleEvent_matches_claim (st : Linux.ServerState)
    (event : Linux.InotifyEvent) (dir : U16Str)
    (h : alookup st.watchRoots event.wd = some dir) :
    (IS_ANY_SET event.mask IN_UNMOUNT = true → (Linux.handleEvent st event).2 = []) ∧
    (IS_ANY_SET event.mask IN_UNMOUNT = false → IS_SET event.mask IN_IGNORED = true →
      (Linux.handleEvent st event).2 = []) ∧
    (IS_ANY_SET event.mask IN_UNMOUNT = false → IS_SET event.mask IN_IGNORED = false →
      IS_SET event.mask IN_Q_OVERFLOW = true →
      (Linux.handleEvent st event).2 = [(FILE_EVENT_INVALIDATE,
        if event.name = [] then dir else dir ++ slashUnit :: event.name)]) ∧
    (IS_ANY_SET event.mask IN_UNMOUNT = false → IS_SET event.mask IN_IGNORED = false →
      IS_SET event.mask IN_Q_OVERFLOW = false →
      IS_ANY_SET event.mask (IN_CREATE ||| IN_MOVED_TO) = true →
      (Linux.handleEvent st event).2 = [(FILE_EVENT_CREATED,
        if event.name = [] then dir else dir ++ slashUnit :: event.name)]) ∧
    (IS_ANY_SET event.mask IN_UNMOUNT = false → IS_SET event.mask IN_IGNORED = false →
      IS_SET event.mask IN_Q_OVERFLOW = false →
      IS_ANY_SET event.mask (IN_CREATE ||| IN_MOVED_TO) = false →
      IS_ANY_SET event.mask (IN_DELETE ||| IN_DELETE_SELF ||| IN_MOVED_FROM) = true →
      (Linux.handleEvent st event).2 = [(FILE_EVENT_REMOVED,
        if event.name = [] then dir else dir ++ slashUnit :: event.name)]) ∧
    (IS_ANY_SET event.mask IN_UNMOUNT = false → IS_SET event.mask IN_IGNORED = false →
      IS_SET event.mask IN_Q_OVERFLOW = false →
      IS_ANY_SET event.mask (IN_CREATE ||| IN_MOVED_TO) = false →
      IS_ANY_SET event.mask (IN_DELETE ||| IN_DELETE_SELF ||| IN_MOVED_FROM) = false →
      IS_SET event.mask IN_MODIFY = true →
      (Linux.handleEvent st event).2 = [(FILE_EVENT_MODIFIED,
        if event.name = [] then dir else dir ++ slashUnit :: event.name)]) ∧
    (IS_ANY_SET event.mask IN_UNMOUNT = false → IS_SET event.mask IN_IGNORED = false →
      IS_SET event.mask IN_Q_OVERFLOW = false →
      IS_ANY_SET event.mask (IN_CREATE ||| IN_MOVED_TO) = false →
      IS_ANY_SET event.mask (IN_DELETE ||| IN_DELETE_SELF ||| IN_MOVED_FROM) = false →
      IS_SET event.mask IN_MODIFY = false →
      (Linux.handleEvent st event).2 = [(FILE_EVENT_UNKNOWN,
        if event.name = [] then dir else dir ++ slashUnit :: event.name)]) := by
  refine ⟨?_, ?_, ?_, ?_, ?_, ?_, ?_⟩
  · intro h1
    simp [Linux.handleEvent, h1]
  · intro h1 h2
    simp [Linux.handleEvent, agetDefault, h, h1, h2]
  · intro h1 h2 h3
    simp [Linux.handleEvent, agetDefault, h, h1, h2, h3]
  · intro h1 h2 h3 h4
    simp [Linux.handleEvent, agetDefault, h, h1, h2, h3, h4]
  · intro h1 h2 h3 h4 h5
    simp [Linux.handleEvent, agetDefault, h, h1, h2, h3, h4, h5]
  · intro h1 h2 h3 h4 h5 h6
    simp [Linux.handleEvent, agetDefault, h, h1, h2, h3, h4, h5, h6]
  · intro h1 h2 h3 h4 h5 h6
    simp [Linux.handleEvent, agetDefault, h, h1, h2, h3, h4, h5, h6]

/-- Witness for C1: a registered directory (code units [100]) receives an
IN_CREATE record named "f" (code unit 102) and the decoder emits one
Created event for the directory path plus slash plus name. -/
theorem linux_handleEvent_matches_claim_witness :
    (Linux.handleEvent ⟨[([100], 1)], [(1, [100])]⟩ ⟨1, 0x100, [102]⟩).2 =
      [(FILE_EVENT_CREATED, [100, 47, 102])] := by
  exact (linux_handleEvent_matches_claim ⟨[([100], 1)], [(1, [100])]⟩ ⟨1, 0x100, [102]⟩
    [100] (by decide)).2.2.2.1 (by decide) (by decide) (by decide) (by decide)

/-- C3 failing input: an IN_MODIFY record named "f" whose watch
descriptor 1 has no entry in the reverse index.  The decoder does not
drop it: operator[] default-inserts descriptor 1 with an empty path into
watchRoots, and a Modified event with path "/f" (the empty directory path
plus slash plus name) is emitted. -/
theorem linux_handleEvent_unknown_wd_not_dropped :
    Linux.handleEvent ⟨[], []⟩ ⟨1, 0x2, [102]⟩ =
      (⟨[], [(1, [])]⟩, [(FILE_EVENT_MODIFIED, [47, 102])]) := by
  decide

/-- C8 failing input: starting from the empty state (which is in
lockstep), handling an IN_MODIFY record for the unregistered descriptor 1
leaves a dangling reverse-index entry (1 maps to the empty path, which is
not a watch-point key), so the indexes are out of lockstep; a subsequent
successful registerPath (path [112], fresh descriptor 2) completes and
the indexes are still out of lockstep. -/
theorem linux_lockstep_not_invariant :
    Linux.checkLockstep ⟨[], []⟩ = true ∧
    Linux.checkLockstep (Linux.handleEvent ⟨[], []⟩ ⟨1, 0x2, [102]⟩).1 = false ∧
    (Linux.registerPath (Linux.handleEvent ⟨[], []⟩ ⟨1, 0x2, [102]⟩).1 [112] (some 2)).2 = none ∧
    Linux.checkLockstep
      (Linux.registerPath (Linux.handleEvent ⟨[], []⟩ ⟨1, 0x2, [102]⟩).1 [112] (some 2)).1 = false := by
  decide

/-- C10: Linux registerPath is atomic on failure: for a path not yet
watched, a failing inotify_add_watch makes the call throw and leaves the
state (both tables) exactly as it was. -/
theorem linux_registerPath_atomic_on_failure (st : Linux.ServerState) (path : U16Str)
    (h : alookup st.watchPoints path = none) :
    Linux.registerPath st path none = (st, some { msg := "Couldn\x27t add watch" }) := by
  simp [Linux.registerPath, h]

/-- Witness for C10: registering path [112] on the empty state with a
failing inotify_add_watch throws and changes nothing. -/
theorem linux_registerPath_atomic_on_failure_witness :
    Linux.registerPath ⟨[], []⟩ [112] none =
      (⟨[], []⟩, some { msg := "Couldn\x27t add watch" }) := by
  exact linux_registerPath_atomic_on_failure ⟨[], []⟩ [112] (by decide)

/-- C7: on a running (non-terminated) Windows server, a completion that
delivers zero bytes with a success error code makes handleEvents emit
exactly one Invalidate/Overflow event, whose path is the watched
directory path — whatever the buffer contents, directory validity, and
re-arming outcome are. -/
theorem win_zero_byte_completion_single_overflow (path : U16Str) (isValidDirectory : Bool)
    (records : List Win.FileNotifyRecord) (listenRes : Win.ListenOutcome) :
    ((Win.handleEvents false Win.ERROR_SUCCESS isValidDirectory path 0 records
        listenRes).1.filter (fun e => e.1 == FILE_EVENT_INVALIDATE)) =
      [(FILE_EVENT_INVALIDATE, path)] := by
  cases listenRes <;>
    simp [Win.handleEvents, Win.ERROR_SUCCESS, FILE_EVENT_INVALIDATE, FILE_EVENT_REMOVED]

/-- C6 counterexample: the Windows run-loop submitter raises "Execution
timed out" on a timed-out wait, which is not the "Command execution timed
out" failure the claim names (the generic submitter's message). -/
theorem win_executeOnRunLoop_timeout_message :
    executeOnRunLoop true 0 WaitStatus.timeout none true =
      Except.error { msg := "Execution timed out" } ∧
    ({ msg := "Execution timed out" } : FwException) ≠ { msg := "Command execution timed out" } := by
  constructor
  · rfl
  · decide

/-- C6 amended: every submitter waits with the bounded THREAD_TIMEOUT; on
timeout the generic executeOnThread throws "Command execution timed out"
while the Windows executeOnRunLoop throws "Execution timed out";
otherwise both rethrow the failure the executed command stored, and when
there is none return the command result boolean. -/
theorem command_submission_outcomes :
    (∀ (f : Option FwException) (b : Bool),
      executeOnThread WaitStatus.timeout f b =
        Except.error { msg := "Command execution timed out" }) ∧
    (∀ (e : FwException) (b : Bool),
      executeOnThread WaitStatus.noTimeout (some e) b = Except.error e) ∧
    (∀ (b : Bool), executeOnThread WaitStatus.noTimeout none b = Except.ok b) ∧
    (∀ (c : Nat) (f : Option FwException) (b : Bool),
      executeOnRunLoop true c WaitStatus.timeout f b =
        Except.error { msg := "Execution timed out" }) ∧
    (∀ (c : Nat) (e : FwException) (b : Bool),
      executeOnRunLoop true c WaitStatus.noTimeout (some e) b = Except.error e) ∧
    (∀ (c : Nat) (b : Bool),
      executeOnRunLoop true c WaitStatus.noTimeout none b = Except.ok b) := by
  refine ⟨?_, ?_, ?_, ?_, ?_, ?_⟩ <;> intros <;> rfl

/-- C5 counterexample: on Windows, path [112] is a key of the watch-point
table with status FINISHED; registering it again succeeds (no "already
watching path" failure) and replaces the entry. -/
theorem win_registerPath_finished_key_succeeds :
    Win.registerPath [([112], Win.WatchPointStatus.finished)] [112] none =
      ([([112], Win.WatchPointStatus.listening)], none) := by
  decide

/-- C5 amended: on Linux, registering a path that is a key of the table
throws "Already watching path" and changes nothing; on Windows, where the
key is the long-path-normalized form, the same holds exactly when the
existing watch point's status is not FINISHED — a FINISHED entry is
erased and the path is registered afresh. -/
theorem registerPath_duplicate_behavior :
    (∀ (st : Linux.ServerState) (p : U16Str) (r : Option Nat),
      (alookup st.watchPoints p).isSome = true →
      Linux.registerPath st p r = (st, some { msg := "Already watching path" })) ∧
    (∀ (m : Win.WatchPoints) (p : U16Str) (c : Option FwException)
      (status : Win.WatchPointStatus),
      alookup m (convertToLongPathIfNeeded p) = some status →
      status ≠ Win.WatchPointStatus.finished →
      Win.registerPath m p c = (m, some { msg := "Already watching path", path := some p })) ∧
    (∀ (m : Win.WatchPoints) (p : U16Str),
      alookup m (convertToLongPathIfNeeded p) = some Win.WatchPointStatus.finished →
      Win.registerPath m p none =
        (aset (aerase m (convertToLongPathIfNeeded p)) (convertToLongPathIfNeeded p)
          Win.WatchPointStatus.listening, none)) := by
  refine ⟨?_, ?_, ?_⟩
  · intro st p r hin
    simp [Linux.registerPath, hin]
  · intro m p c status hin hstatus
    simp [Win.registerPath, hin, hstatus]
  · intro m p hin
    simp [Win.registerPath, hin]

/-- Witness for the amended C5: the Linux branch at a one-entry table,
the Windows non-FINISHED branch at a LISTENING entry, and the Windows
FINISHED branch at a FINISHED entry. -/
theorem registerPath_duplicate_behavior_witness :
    Linux.registerPath ⟨[([112], 1)], [(1, [112])]⟩ [112] (some 2) =
      (⟨[([112], 1)], [(1, [112])]⟩, some { msg := "Already watching path" }) ∧
    Win.registerPath [([112], Win.WatchPointStatus.listening)] [112] none =
      ([([112], Win.WatchPointStatus.listening)],
        some { msg := "Already watching path", path := some [112] }) ∧
    Win.registerPath [([112], Win.WatchPointStatus.finished)] [112] none =
      ([([112], Win.WatchPointStatus.listening)], none) := by
  refine ⟨?_, ?_, ?_⟩
  · exact registerPath_duplicate_behavior.1 ⟨[([112], 1)], [(1, [112])]⟩ [112] (some 2)
      (by decide)
  · exact registerPath_duplicate_behavior.2.1 [([112], Win.WatchPointStatus.listening)]
      [112] none Win.WatchPointStatus.listening (by decide) (by decide)
  · exact registerPath_duplicate_behavior.2.2 [([112], Win.WatchPointStatus.finished)]
      [112] (by decide)

/-- C9 counterexample: for a queue holding one command, the drain trace
of processCommands is lock, execute, clear, unlock — the command body
executes strictly between taking and releasing the queue mutex, so the
mutex is held while a command body executes. -/
theorem processCommands_executes_under_mutex :
    processCommandsTrace 1 =
      [DrainStep.lockStep, DrainStep.execStep 0, DrainStep.clearStep, DrainStep.unlockStep] ∧
    someExecUnderMutex (processCommandsTrace 1) = true := by
  decide

/-- C9 amended: the loop thread takes the queue mutex, executes the
queued command bodies in submission order while holding the mutex, then
clears the queue and releases the mutex: every execute step of the drain
trace happens with the mutex held, the i-th command body runs at step
i + 1, and the clear and the release follow all the command bodies. -/
theorem processCommands_drain_shape :
    (∀ (n k i : Nat), (processCommandsTrace n)[k]? = some (DrainStep.execStep i) →
      mutexHeldAt (processCommandsTrace n) k = true) ∧
    (∀ (n i : Nat), i < n →
      (processCommandsTrace n)[i + 1]? = some (DrainStep.execStep i)) ∧
    (∀ (n : Nat), (processCommandsTrace n)[n + 1]? = some DrainStep.clearStep ∧
      (processCommandsTrace n)[n + 2]? = some DrainStep.unlockStep) := by
  have hcount : ∀ (n j2 : Nat),
      ((((List.range n).map DrainStep.execStep).take j2).count DrainStep.unlockStep) = 0 := by
    intro n j2
    rw [List.count_eq_zero]
    intro hmem
    have hmem2 := List.take_subset j2 _ hmem
    simp [List.mem_map] at hmem2
  refine ⟨?_, ?_, ?_⟩
  · intro n k i h
    match k with
    | 0 => simp [processCommandsTrace] at h
    | j + 1 =>
      simp only [processCommandsTrace, List.getElem?_cons_succ] at h
      by_cases hj : j < n
      · simp only [mutexHeldAt, decide_eq_true_eq, processCommandsTrace,
          List.take_succ_cons]
        rw [List.take_append_eq_append_take]
        rw [List.count_cons_of_ne (by simp) _, List.count_cons_self]
        simp only [List.length_map, List.length_range,
          Nat.sub_eq_zero_of_le (Nat.le_of_lt hj), List.take_zero, List.append_nil]
        rw [hcount n j]
        exact Nat.succ_pos _
      · rw [List.getElem?_append_right (by simpa using Nat.le_of_not_lt hj)] at h
        rcases hd : j - ((List.range n).map DrainStep.execStep).length with _ | _ | m <;>
          rw [hd] at h <;> simp at h
  · intro n i h
    simp only [processCommandsTrace, List.getElem?_cons_succ]
    rw [List.getElem?_append_left (by simpa using h)]
    simp [List.getElem?_map, List.getElem?_range h]
  · intro n
    constructor
    · simp only [processCommandsTrace, List.getElem?_cons_succ]
      rw [List.getElem?_append_right (by simp)]
      simp
    · simp only [processCommandsTrace, List.getElem?_cons_succ]
      rw [List.getElem?_append_right (by simp)]
      simp

/-- Witness for the amended C9 at a one-command queue: the command body
at step 1 runs with the mutex held, and it is command 0. -/
theorem processCommands_drain_shape_witness :
    mutexHeldAt (processCommandsTrace 1) 1 = true ∧
    (processCommandsTrace 1)[1]? = some (DrainStep.execStep 0) := by
  constructor
  · exact processCommands_drain_shape.1 1 1 0 (by decide)
  · exact processCommands_drain_shape.2.1 1 0 (by decide)

/-- C4 counterexample: on Linux, with only path [98] watched,
unregistering the list [[97], [98]] hits the throwing unregisterPath on
the missing path [97]; the exception propagates, no boolean false is
returned, and the still-watched path [98] is NOT unregistered. -/
theorem linux_unregisterPaths_stops_at_missing :
    Linux.unregisterPaths ⟨[([98], 1)], [(1, [98])]⟩ [[97], [98]] =
      (⟨[([98], 1)], [(1, [98])]⟩,
        some { msg := "Cannot stop watching path that was never watched" }) ∧
    alookup (Linux.unregisterPaths ⟨[([98], 1)], [(1, [98])]⟩ [[97], [98]]).1.watchPoints
        [98] = some 1 := by
  decide

/-- C4 amended: on Windows the claim holds — unregisterPaths never stops
early (the final table is the fold of erasures over the whole list) and
returns true exactly when every listed path was watched under its
long-path-normalized key (stated for lists without duplicate normalized
keys).  On Linux, unregisterPath throws on a missing path, so the
iteration stops there: the exception is propagated and the state is the
one reached when it was thrown — in particular a leading missing path
leaves every path watched. -/
theorem unregisterPaths_aggregate_behavior :
    (∀ (m : Win.WatchPoints) (paths : List U16Str),
      (Win.unregisterPaths m paths).2 =
        paths.foldl (fun acc p => aerase acc (convertToLongPathIfNeeded p)) m) ∧
    (∀ (m : Win.WatchPoints) (paths : List U16Str),
      (paths.map convertToLongPathIfNeeded).Nodup →
      ((Win.unregisterPaths m paths).1 = true ↔
        ∀ p ∈ paths, (alookup m (convertToLongPathIfNeeded p)).isSome = true)) ∧
    (∀ (st : Linux.ServerState) (p : U16Str) (ps : List U16Str),
      alookup st.watchPoints p = none →
      Linux.unregisterPaths st (p :: ps) =
        (st, some { msg := "Cannot stop watching path that was never watched" })) := by
  refine ⟨?_, ?_, ?_⟩
  · intro m paths
    induction paths generalizing m with
    | nil => simp [Win.unregisterPaths]
    | cons p ps ih =>
      rcases hl : alookup m (convertToLongPathIfNeeded p) with _ | s
      · simp only [Win.unregisterPaths, Win.unregisterPath, hl, List.foldl_cons]
        rw [aerase_of_lookup_none m _ hl]
        exact ih m
      · simp only [Win.unregisterPaths, Win.unregisterPath, hl, List.foldl_cons]
        exact ih (aerase m (convertToLongPathIfNeeded p))
  · intro m paths
    induction paths generalizing m with
    | nil =>
      intro _
      simp [Win.unregisterPaths]
    | cons p ps ih =>
      intro hnodup
      rw [List.map_cons, List.nodup_cons] at hnodup
      rcases hl : alookup m (convertToLongPathIfNeeded p) with _ | s
      · simp only [Win.unregisterPaths, Win.unregisterPath, hl, Bool.false_and]
        constructor
        · intro habs
          exact absurd habs (by simp)
        · intro hall
          have hp := hall p (List.mem_cons_self p ps)
          rw [hl] at hp
          simp at hp
      · simp only [Win.unregisterPaths, Win.unregisterPath, hl, Bool.true_and]
        have hlook : ∀ q ∈ ps,
            alookup (aerase m (convertToLongPathIfNeeded p)) (convertToLongPathIfNeeded q) =
              alookup m (convertToLongPathIfNeeded q) := by
          intro q hq
          refine alookup_aerase_ne m _ _ ?_
          intro heq
          exact hnodup.1 (heq ▸ List.mem_map_of_mem convertToLongPathIfNeeded hq)
        rw [ih (aerase m (convertToLongPathIfNeeded p)) hnodup.2]
        constructor
        · intro hall q hq
          rcases List.mem_cons.mp hq with hq1 | hq2
          · subst hq1
            simp [hl]
          · rw [← hlook q hq2]
            exact hall q hq2
        · intro hall q hq
          rw [hlook q hq]
          exact hall q (List.mem_cons_of_mem p hq)
  · intro st p ps h
    simp [Linux.unregisterPaths, Linux.unregisterPath, h]

/-- Witness for the amended C4: a two-entry Windows table with one
missing listed path still erases the watched one; a one-entry table gives
the true-iff-all-watched equivalence; a Linux unregister starting with a
missing path returns the throw with the state untouched. -/
theorem unregisterPaths_aggregate_behavior_witness :
    (Win.unregisterPaths
        [([97], Win.WatchPointStatus.listening), ([98], Win.WatchPointStatus.listening)]
        [[99], [97]]).2 =
      List.foldl (fun acc p => aerase acc (convertToLongPathIfNeeded p))
        [([97], Win.WatchPointStatus.listening), ([98], Win.WatchPointStatus.listening)]
        [[99], [97]] ∧
    ((Win.unregisterPaths [([97], Win.WatchPointStatus.listening)] [[97]]).1 = true ↔
      ∀ p ∈ [[97]],
        (alookup [([97], Win.WatchPointStatus.listening)]
          (convertToLongPathIfNeeded p)).isSome = true) ∧
    Linux.unregisterPaths ⟨[], []⟩ [[97]] =
      (⟨[], []⟩, some { msg := "Cannot stop watching path that was never watched" }) := by
  refine ⟨?_, ?_, ?_⟩
  · exact unregisterPaths_aggregate_behavior.1
      [([97], Win.WatchPointStatus.listening), ([98], Win.WatchPointStatus.listening)]
      [[99], [97]]
  · exact unregisterPaths_aggregate_behavior.2.1 [([97], Win.WatchPointStatus.listening)]
      [[97]] (by decide)
  · exact unregisterPaths_aggregate_behavior.2.2 ⟨[], []⟩ [97] [] (by decide)

end NativePlatform
